import Mathlib

/-!
Verification of the retry/fallback core of `02_fallback_logic.py`
(functions `execute_with_retry` and `get_fallback_response`).

Results returned by the Python tool functions are dictionaries; we embed
them as association lists from string keys to Python values, with Python
truthiness made explicit.  A possibly stateful operation (the Python code
calls `func(**args)` repeatedly and the function may answer differently on
each call) is embedded as a stream `Nat → PyDict`: `func i` is the result
of the i-th call.  The retry loop is embedded with an explicit count of
calls made and the list of backoff waits performed, so that claims about
attempt counts and delays are statable.
-/

/-- A Python value, as far as the result dictionaries of this program use them. -/
inductive PyVal where
  | none
  | bool (b : Bool)
  | int (n : Int)
  | str (s : String)
  | list (xs : List PyVal)


/-- Python truthiness (`bool(v)`) for the embedded values. -/
def truthy : PyVal → Bool
  | .none => false
  | .bool b => b
  | .int n => n != 0
  | .str s => !s.isEmpty
  | .list xs => !xs.isEmpty

/-- A Python dict with string keys, as an association list. -/
def PyDict := List (String × PyVal)


/-- `d.get(k)` — the value at key `k`, or `None` when the key is absent. -/
def dictGet (d : PyDict) (k : String) : PyVal :=
  (d.lookup k).getD .none

/-- `k in d` — key membership test. -/
def dictHas (d : PyDict) (k : String) : Bool :=
  (d.lookup k).isSome

/-- The retry condition of `execute_with_retry`: the loop keeps going exactly
when the guard `"error" not in result or not result.get("retryable")` is
false, i.e. when the result has an `"error"` key and a truthy `"retryable"`
value. -/
def shouldRetry (r : PyDict) : Bool :=
  dictHas r "error" && truthy (dictGet r "retryable")

/-- The synthesized terminal failure returned when the loop exhausts the
budget: `{"error": "max_retries", "message": f"Failed after {max_retries}
attempts", "retryable": False}`. -/
def maxRetriesFailure (maxRetries : Int) : PyDict :=
  [("error", .str "max_retries"),
   ("message", .str ("Failed after " ++ toString maxRetries ++ " attempts")),
   ("retryable", .bool false)]

/-- Outcome of one run of the retry loop: the returned dict, the number of
calls made to the operation, and the list of backoff waits (in seconds)
performed, in order. -/
structure RetryOutcome where
  result : PyDict
  calls : Nat
  waits : List Nat


/-- The body of `execute_with_retry`'s `for attempt in range(max_retries)`
loop, recursing on the number of remaining iterations; `attempt` is the
current 0-based attempt index.  A retryable failure on the last iteration
(remaining = 1) falls through to the synthesized failure without waiting;
otherwise the loop waits `2 ** attempt` and continues. -/
def retryGo (func : Nat → PyDict) (maxRetries : Int) (attempt : Nat) :
    Nat → RetryOutcome
  | 0 => ⟨maxRetriesFailure maxRetries, 0, []⟩
  | remaining + 1 =>
    let r := func attempt
    if shouldRetry r then
      match remaining with
      | 0 => ⟨maxRetriesFailure maxRetries, 1, []⟩
      | remaining' + 1 =>
        let rest := retryGo func maxRetries (attempt + 1) (remaining' + 1)
        ⟨rest.result, rest.calls + 1, 2 ^ attempt :: rest.waits⟩
    else
      ⟨r, 1, []⟩

/-- `execute_with_retry(func, args, max_retries)`.  The argument mapping is
fixed across attempts in the source, so it is absorbed into `func`;
`range(max_retries)` iterates `max_retries.toNat` times (zero times for a
non-positive value). -/
def execute_with_retry (func : Nat → PyDict) (maxRetries : Int) : RetryOutcome :=
  retryGo func maxRetries 0 maxRetries.toNat

/-- The fallback-message table of `get_fallback_response`. -/
def fallbacks : List (String × String) :=
  [("not_found", "I couldn\'t find that. Please double-check the ID and try again."),
   ("timeout", "Our system is running slow. Would you like me to try again?"),
   ("rate_limit", "We\'re experiencing high traffic. Please wait a moment."),
   ("service_unavailable", "Our system is temporarily unavailable. Try again in a few minutes."),
   ("max_retries", "I\'m having trouble accessing our systems. Let me connect you with support@globomantics.com")]

/-- `get_fallback_response(error)` = `fallbacks.get(error, <generic message>)`. -/
def get_fallback_response (error : String) : String :=
  (fallbacks.lookup error).getD "I encountered an issue. Please contact support@globomantics.com"

/-- A retryable failure, e.g. the simulated timeout result of
`get_order_status`. -/
def timeoutResult : PyDict :=
  [("error", .str "timeout"), ("message", .str "Request timed out"), ("retryable", .bool true)]

/-- A successful result, e.g. the `ORD-12345` row of the orders table. -/
def successResult : PyDict :=
  [("order_id", .str "ORD-12345"), ("status", .str "delivered"),
   ("items", .list [.str "Blue Widget"])]

/-- A non-retryable failure, e.g. the `not_found` result of `get_order_status`. -/
def notFoundResult : PyDict :=
  [("error", .str "not_found"), ("message", .str "Order ORD-99999 not found"),
   ("retryable", .bool false)]

/-- A failure dict carrying an `"error"` key but no `"retryable"` key at all. -/
def bareErrorResult : PyDict :=
  [("error", .str "oops")]

/-- An operation result that itself carries the error code `"max_retries"`
with a falsy `"retryable"` flag. -/
def upstreamMaxRetriesResult : PyDict :=
  [("error", .str "max_retries"), ("retryable", .bool false)]

example : execute_with_retry (fun _ => timeoutResult) 3 =
    ⟨maxRetriesFailure 3, 3, [1, 2]⟩ := by rfl

example : execute_with_retry (fun _ => successResult) 3 = ⟨successResult, 1, []⟩ := by
  rfl

example : execute_with_retry (fun _ => timeoutResult) 0 =
    ⟨maxRetriesFailure 0, 0, []⟩ := by rfl

example : (maxRetriesFailure 0).lookup "message" =
    some (.str "Failed after 0 attempts") := by rfl

/-! ### Unfolding lemmas for the retry loop -/

/-- With no iterations left, the loop returns the synthesized failure. -/
theorem retryGo_zero (func : Nat → PyDict) (m : Int) (a : Nat) :
    retryGo func m a 0 = ⟨maxRetriesFailure m, 0, []⟩ := rfl

/-- A result that is not a retryable failure is returned at once. -/
theorem retryGo_noretry (func : Nat → PyDict) (m : Int) (a n : Nat)
    (h : shouldRetry (func a) = false) :
    retryGo func m a (n + 1) = ⟨func a, 1, []⟩ := by
  unfold retryGo
  simp [h]

/-- A retryable failure on the last iteration yields the synthesized
failure with no wait. -/
theorem retryGo_retry_last (func : Nat → PyDict) (m : Int) (a : Nat)
    (h : shouldRetry (func a) = true) :
    retryGo func m a 1 = ⟨maxRetriesFailure m, 1, []⟩ := by
  unfold retryGo
  simp [h]

/-- A retryable failure with iterations to spare waits `2 ^ a` and continues. -/
theorem retryGo_retry_step (func : Nat → PyDict) (m : Int) (a n : Nat)
    (h : shouldRetry (func a) = true) :
    retryGo func m a (n + 2) =
      ⟨(retryGo func m (a + 1) (n + 1)).result,
       (retryGo func m (a + 1) (n + 1)).calls + 1,
       2 ^ a :: (retryGo func m (a + 1) (n + 1)).waits⟩ := by
  conv_lhs => unfold retryGo
  simp [h]

/-- Prepending the backoff of attempt `a` to the backoffs of the following
`n` attempts gives the backoffs of `n + 1` attempts starting at `a`. -/
theorem backoff_cons (a n : Nat) :
    (2 : Nat) ^ a :: (List.range n).map (fun j => 2 ^ (a + 1 + j)) =
      (List.range (n + 1)).map (fun j => 2 ^ (a + j)) := by
  have hf : ((fun j => (2 : Nat) ^ (a + j)) ∘ Nat.succ) =
      (fun j => (2 : Nat) ^ (a + 1 + j)) := by
    funext j
    simp only [Function.comp_apply]
    congr 1
    omega
  rw [List.range_succ_eq_map, List.map_cons, List.map_map, hf]
  simp

/-- When every call yields a retryable failure, the loop always ends in the
synthesized failure, making one call per remaining iteration and waiting the
exponential backoff after every attempt but the last. -/
theorem retryGo_all_retry (func : Nat → PyDict) (m : Int)
    (h : ∀ i, shouldRetry (func i) = true) :
    ∀ remaining attempt, (retryGo func m attempt remaining).result = maxRetriesFailure m ∧
      (retryGo func m attempt remaining).calls = remaining ∧
      (retryGo func m attempt remaining).waits =
        (List.range (remaining - 1)).map (fun j => 2 ^ (attempt + j)) := by
  intro remaining
  induction remaining with
  | zero => intro a; exact ⟨rfl, rfl, rfl⟩
  | succ n ih =>
    intro a
    match n with
    | 0 => rw [retryGo_retry_last func m a (h a)]; exact ⟨rfl, rfl, rfl⟩
    | k + 1 =>
      rw [retryGo_retry_step func m a k (h a)]
      obtain ⟨hr, hc, hw⟩ := ih (a + 1)
      refine ⟨hr, by rw [hc], ?_⟩
      show 2 ^ a :: (retryGo func m (a + 1) (k + 1)).waits = _
      rw [hw]
      simp only [Nat.add_sub_cancel]
      exact backoff_cons a k

/-- The loop never makes more calls than it has iterations. -/
theorem retryGo_calls_le (func : Nat → PyDict) (m : Int) :
    ∀ remaining attempt, (retryGo func m attempt remaining).calls ≤ remaining := by
  intro remaining
  induction remaining with
  | zero => intro a; exact Nat.le_refl 0
  | succ n ih =>
    intro a
    by_cases hr : shouldRetry (func a) = true
    · match n with
      | 0 => simp [retryGo_retry_last func m a hr]
      | k + 1 =>
        rw [retryGo_retry_step func m a k hr]
        exact Nat.succ_le_succ (ih (a + 1))
    · rw [retryGo_noretry func m a n (Bool.not_eq_true _ ▸ Bool.of_not_eq_true hr)]
      exact Nat.succ_le_succ (Nat.zero_le n)

/-- If all calls before index `i` are retryable failures and call `i` is not,
the loop returns result `i` unchanged after `i + 1` calls, having waited the
exponential backoffs of the first `i` attempts only. -/
theorem retryGo_first_exit (func : Nat → PyDict) (m : Int) :
    ∀ i remaining attempt, i < remaining →
      (∀ j, j < i → shouldRetry (func (attempt + j)) = true) →
      shouldRetry (func (attempt + i)) = false →
      retryGo func m attempt remaining =
        ⟨func (attempt + i), i + 1, (List.range i).map (fun j => 2 ^ (attempt + j))⟩ := by
  intro i
  induction i with
  | zero =>
    intro remaining a hlt _ hi
    match remaining, hlt with
    | n + 1, _ =>
      rw [retryGo_noretry func m a n (by simpa using hi)]
      simp
  | succ i' ih =>
    intro remaining a hlt hj hi
    match remaining, hlt with
    | (k + 2), _ =>
      rw [retryGo_retry_step func m a k (by simpa using hj 0 (Nat.succ_pos i'))]
      have hstep := ih (k + 1) (a + 1) (by omega)
        (fun j hjlt => by
          have := hj (j + 1) (by omega)
          simpa [Nat.add_assoc, Nat.add_comm 1 j] using this)
        (by simpa [Nat.add_assoc, Nat.add_comm 1 i'] using hi)
      rw [hstep]
      have h1 : a + 1 + i' = a + (i' + 1) := by omega
      rw [h1, backoff_cons a i']
    | 1, hlt1 => exact absurd hlt1 (by omega)

/-- If the operation never answers with the error code `"max_retries"` itself,
then a loop result carrying that code means every call the loop made yielded
a retryable failure. -/
theorem retryGo_max_retries_provenance (func : Nat → PyDict) (m : Int)
    (hne : ∀ i, dictGet (func i) "error" ≠ PyVal.str "max_retries") :
    ∀ remaining attempt,
      (retryGo func m attempt remaining).result.lookup "error" =
        some (PyVal.str "max_retries") →
      ∀ k, k < (retryGo func m attempt remaining).calls →
        shouldRetry (func (attempt + k)) = true := by
  intro remaining
  induction remaining with
  | zero =>
    intro a _ k hk
    exact absurd hk (Nat.not_lt_zero k)
  | succ n ih =>
    intro a hres k hk
    by_cases hr : shouldRetry (func a) = true
    · match n with
      | 0 =>
        rw [retryGo_retry_last func m a hr] at hk
        have hk1 : k < 1 := hk
        have hk0 : k = 0 := by omega
        subst hk0
        simpa using hr
      | j + 1 =>
        rw [retryGo_retry_step func m a j hr] at hres hk
        have hres' : (retryGo func m (a + 1) (j + 1)).result.lookup "error" =
            some (PyVal.str "max_retries") := hres
        have hk' : k < (retryGo func m (a + 1) (j + 1)).calls + 1 := hk
        match k with
        | 0 => simpa using hr
        | k' + 1 =>
          have hrec := ih (a + 1) hres' k' (by omega)
          have he : a + 1 + k' = a + (k' + 1) := by omega
          exact he ▸ hrec
    · have hf : shouldRetry (func a) = false := by simpa using hr
      rw [retryGo_noretry func m a n hf] at hres
      have hres' : (func a).lookup "error" = some (PyVal.str "max_retries") := hres
      have hget : dictGet (func a) "error" = PyVal.str "max_retries" := by
        unfold dictGet
        rw [hres']
        rfl
      exact absurd hget (hne a)

/-- When the very first call is not a retryable failure and the budget allows
at least one attempt, the loop returns that first result unchanged, after one
call and no wait. -/
theorem execute_noretry_first (func : Nat → PyDict) (m : Int) (hm : 1 ≤ m)
    (hs : shouldRetry (func 0) = false) :
    execute_with_retry func m = ⟨func 0, 1, []⟩ := by
  obtain ⟨k, hk⟩ : ∃ k, m.toNat = k + 1 := ⟨m.toNat - 1, by omega⟩
  show retryGo func m 0 m.toNat = _
  rw [hk]
  exact retryGo_noretry func m 0 k hs

/-! ### Claim theorems -/

/-- C1: for an operation that returns a retryable failure on every call,
`execute_with_retry` with `max_retries = 3` calls the operation exactly 3
times, waits 1 then 2 time units (after attempts 0 and 1, never after the
last attempt), and returns a terminal failure with error code
`"max_retries"` and `retryable = False`. -/
theorem retry_exhaustion_budget_three (func : Nat → PyDict)
    (h : ∀ i, shouldRetry (func i) = true) :
    (execute_with_retry func 3).calls = 3 ∧
    (execute_with_retry func 3).waits = [1, 2] ∧
    (execute_with_retry func 3).result.lookup "error" = some (PyVal.str "max_retries") ∧
    (execute_with_retry func 3).result.lookup "retryable" = some (PyVal.bool false) := by
  obtain ⟨hr, hc, hw⟩ := retryGo_all_retry func 3 h 3 0
  refine ⟨hc, ?_, ?_, ?_⟩
  · show (retryGo func 3 0 3).waits = [1, 2]
    rw [hw]
    decide
  · show (retryGo func 3 0 3).result.lookup "error" = some (PyVal.str "max_retries")
    rw [hr]
    rfl
  · show (retryGo func 3 0 3).result.lookup "retryable" = some (PyVal.bool false)
    rw [hr]
    rfl

theorem retry_exhaustion_budget_three_witness :
    (execute_with_retry (fun _ => timeoutResult) 3).calls = 3 ∧
    (execute_with_retry (fun _ => timeoutResult) 3).waits = [1, 2] ∧
    (execute_with_retry (fun _ => timeoutResult) 3).result.lookup "error" =
      some (PyVal.str "max_retries") ∧
    (execute_with_retry (fun _ => timeoutResult) 3).result.lookup "retryable" =
      some (PyVal.bool false) :=
  retry_exhaustion_budget_three (fun _ => timeoutResult) (fun _ => rfl)

/-- C2: for any budget of at least 1 and an operation whose results are all
retryable failures, the returned result is the synthesized failure with code
`"max_retries"`, a message stating the attempt count, and a false
`retryable` flag; it is never any of the operation's own transient results,
and its code is none of `"timeout"`, `"rate_limit"`, `"service_unavailable"`. -/
theorem retry_exhaustion_synthesized (func : Nat → PyDict) (m : Int)
    (hm : 1 ≤ m) (h : ∀ i, shouldRetry (func i) = true) :
    (execute_with_retry func m).result = maxRetriesFailure m ∧
    (execute_with_retry func m).result.lookup "error" = some (PyVal.str "max_retries") ∧
    (execute_with_retry func m).result.lookup "message" =
      some (PyVal.str ("Failed after " ++ toString m ++ " attempts")) ∧
    (execute_with_retry func m).result.lookup "retryable" = some (PyVal.bool false) ∧
    (∀ i, (execute_with_retry func m).result ≠ func i) ∧
    (∀ s, (execute_with_retry func m).result.lookup "error" = some (PyVal.str s) →
      s ≠ "timeout" ∧ s ≠ "rate_limit" ∧ s ≠ "service_unavailable") := by
  have hE : (execute_with_retry func m).result = maxRetriesFailure m :=
    (retryGo_all_retry func m h m.toNat 0).1
  refine ⟨hE, ?_, ?_, ?_, ?_, ?_⟩
  · rw [hE]; rfl
  · rw [hE]; rfl
  · rw [hE]; rfl
  · intro i heq
    have h2 : shouldRetry (execute_with_retry func m).result = false := by
      rw [hE]; rfl
    rw [heq, h i] at h2
    exact absurd h2 (by decide)
  · intro s hs
    rw [hE] at hs
    have hs' : some (PyVal.str "max_retries") = some (PyVal.str s) := hs
    injection hs' with h1
    injection h1 with h2
    subst h2
    refine ⟨by decide, by decide, by decide⟩

theorem retry_exhaustion_synthesized_witness :
    (execute_with_retry (fun _ => timeoutResult) 5).result = maxRetriesFailure 5 :=
  (retry_exhaustion_synthesized (fun _ => timeoutResult) 5 (by decide) (fun _ => rfl)).1

/-- C5: whenever the first call returns a success (no `"error"` key) or a
failure with `retryable = False`, and the budget allows at least one attempt,
`execute_with_retry` returns that first result unchanged after exactly one
call, with no wait. -/
theorem first_result_returned_unchanged (func : Nat → PyDict) (m : Int)
    (hm : 1 ≤ m)
    (h : (func 0).lookup "error" = none ∨
      (dictHas (func 0) "error" = true ∧ dictGet (func 0) "retryable" = PyVal.bool false)) :
    execute_with_retry func m = ⟨func 0, 1, []⟩ := by
  have hs : shouldRetry (func 0) = false := by
    rcases h with h | ⟨_, h2⟩
    · simp [shouldRetry, dictHas, h]
    · simp [shouldRetry, h2, truthy]
  exact execute_noretry_first func m hm hs

theorem first_result_returned_unchanged_witness :
    execute_with_retry (fun _ => successResult) 3 = ⟨successResult, 1, []⟩ ∧
    execute_with_retry (fun _ => notFoundResult) 3 = ⟨notFoundResult, 1, []⟩ :=
  ⟨first_result_returned_unchanged (fun _ => successResult) 3 (by decide) (Or.inl rfl),
   first_result_returned_unchanged (fun _ => notFoundResult) 3 (by decide)
     (Or.inr ⟨rfl, rfl⟩)⟩

/-- C6: for an operation failing retryably on attempts 0 and 1 and succeeding
on attempt 2, `execute_with_retry` with `max_retries = 3` returns the success
value after exactly 3 calls and exactly 2 waits, of 1 and 2 time units. -/
theorem retry_twice_then_success (func : Nat → PyDict)
    (h0 : shouldRetry (func 0) = true) (h1 : shouldRetry (func 1) = true)
    (h2 : (func 2).lookup "error" = none) :
    execute_with_retry func 3 = ⟨func 2, 3, [1, 2]⟩ := by
  have hs2 : shouldRetry (func 2) = false := by simp [shouldRetry, dictHas, h2]
  have hfe := retryGo_first_exit func 3 2 3 0 (by omega)
    (fun j hj => by
      rcases j with _ | _ | j
      · simpa using h0
      · simpa using h1
      · exact absurd hj (by omega))
    (by simpa using hs2)
  show retryGo func 3 0 3 = _
  rw [hfe]
  rfl

theorem retry_twice_then_success_witness :
    execute_with_retry (fun i => if i < 2 then timeoutResult else successResult) 3 =
      ⟨successResult, 3, [1, 2]⟩ :=
  retry_twice_then_success (fun i => if i < 2 then timeoutResult else successResult)
    rfl rfl rfl

/-- C7: `get_fallback_response` is a total deterministic function on strings:
the five recognized codes map to their own specific guidance messages, every
other string maps to the one generic support-contact message, the six
messages are pairwise distinct, and two calls on the same code agree. -/
theorem fallback_resolver_spec :
    get_fallback_response "not_found" =
      "I couldn\'t find that. Please double-check the ID and try again." ∧
    get_fallback_response "timeout" =
      "Our system is running slow. Would you like me to try again?" ∧
    get_fallback_response "rate_limit" =
      "We\'re experiencing high traffic. Please wait a moment." ∧
    get_fallback_response "service_unavailable" =
      "Our system is temporarily unavailable. Try again in a few minutes." ∧
    get_fallback_response "max_retries" =
      "I\'m having trouble accessing our systems. Let me connect you with support@globomantics.com" ∧
    (∀ s, s ≠ "not_found" → s ≠ "timeout" → s ≠ "rate_limit" →
      s ≠ "service_unavailable" → s ≠ "max_retries" →
      get_fallback_response s =
        "I encountered an issue. Please contact support@globomantics.com") ∧
    (∀ s t, s = t → get_fallback_response s = get_fallback_response t) ∧
    ((["not_found", "timeout", "rate_limit", "service_unavailable",
        "max_retries"].map get_fallback_response ++
      ["I encountered an issue. Please contact support@globomantics.com"]).Nodup) := by
  refine ⟨rfl, rfl, rfl, rfl, rfl, ?_, fun s t h => h ▸ rfl, by decide⟩
  intro s h1 h2 h3 h4 h5
  have e1 : (s == "not_found") = false := beq_eq_false_iff_ne.mpr h1
  have e2 : (s == "timeout") = false := beq_eq_false_iff_ne.mpr h2
  have e3 : (s == "rate_limit") = false := beq_eq_false_iff_ne.mpr h3
  have e4 : (s == "service_unavailable") = false := beq_eq_false_iff_ne.mpr h4
  have e5 : (s == "max_retries") = false := beq_eq_false_iff_ne.mpr h5
  unfold get_fallback_response fallbacks
  simp [List.lookup, e1, e2, e3, e4, e5]

theorem fallback_resolver_spec_witness :
    get_fallback_response "quota_exceeded" =
      "I encountered an issue. Please contact support@globomantics.com" :=
  fallback_resolver_spec.2.2.2.2.2.1 "quota_exceeded"
    (by decide) (by decide) (by decide) (by decide) (by decide)

/-- C9: a result with an `"error"` key whose `"retryable"` value is absent or
falsy is treated exactly like a non-retryable failure — returned unchanged
after a single call with no wait — and success is detected solely by the
absence of the `"error"` key: a result without it is likewise returned at
once whatever its `"retryable"` value. -/
theorem falsy_retryable_single_attempt (func : Nat → PyDict) (m : Int)
    (hm : 1 ≤ m) (herr : dictHas (func 0) "error" = true)
    (hfalsy : truthy (dictGet (func 0) "retryable") = false) :
    execute_with_retry func m = ⟨func 0, 1, []⟩ ∧
    (∀ g : Nat → PyDict, (g 0).lookup "error" = none →
      execute_with_retry g m = ⟨g 0, 1, []⟩) := by
  refine ⟨?_, ?_⟩
  · exact execute_noretry_first func m hm (by simp [shouldRetry, hfalsy])
  · intro g hg
    exact execute_noretry_first g m hm (by simp [shouldRetry, dictHas, hg])

theorem falsy_retryable_single_attempt_witness :
    execute_with_retry (fun _ => bareErrorResult) 3 = ⟨bareErrorResult, 1, []⟩ :=
  (falsy_retryable_single_attempt (fun _ => bareErrorResult) 3 (by decide) rfl rfl).1

/-- C10: for every non-positive budget, `execute_with_retry` calls the
operation zero times, performs zero waits, and returns the dict
`{"error": "max_retries", "message": f"Failed after {max_retries} attempts",
"retryable": False}`. -/
theorem nonpositive_budget_result (func : Nat → PyDict) (m : Int) (hm : m ≤ 0) :
    execute_with_retry func m =
      ⟨[("error", PyVal.str "max_retries"),
        ("message", PyVal.str ("Failed after " ++ toString m ++ " attempts")),
        ("retryable", PyVal.bool false)], 0, []⟩ := by
  have h0 : m.toNat = 0 := by omega
  show retryGo func m 0 m.toNat = _
  rw [h0]
  rfl

theorem nonpositive_budget_result_witness :
    execute_with_retry (fun _ => timeoutResult) 0 =
      ⟨[("error", PyVal.str "max_retries"),
        ("message", PyVal.str "Failed after 0 attempts"),
        ("retryable", PyVal.bool false)], 0, []⟩ :=
  nonpositive_budget_result (fun _ => timeoutResult) 0 (by decide)

/-- C3 counterexample: called with `max_retries = 0`, `execute_with_retry`
makes zero calls but returns the synthesized `"max_retries"` failure, not an
`"invalid_configuration"` error — refuting the claim that it fails with
`invalid_configuration`. -/
theorem budget_zero_counterexample :
    (execute_with_retry (fun _ => timeoutResult) 0).calls = 0 ∧
    (execute_with_retry (fun _ => timeoutResult) 0).result.lookup "error" =
      some (PyVal.str "max_retries") ∧
    (execute_with_retry (fun _ => timeoutResult) 0).result.lookup "error" ≠
      some (PyVal.str "invalid_configuration") := by
  refine ⟨rfl, rfl, ?_⟩
  intro h
  have h' : some (PyVal.str "max_retries") = some (PyVal.str "invalid_configuration") := h
  injection h' with h1
  injection h1 with h2
  exact absurd h2 (by decide)

/-- C3 amended: a budget of 0 (or any non-positive value) makes zero calls
and incurs no delay, but the returned error code is the synthesized
`"max_retries"`, not `"invalid_configuration"` — no configuration validation
exists in the code. -/
theorem nonpositive_budget_no_invalid_configuration (func : Nat → PyDict)
    (m : Int) (hm : m ≤ 0) :
    (execute_with_retry func m).calls = 0 ∧
    (execute_with_retry func m).waits = [] ∧
    (execute_with_retry func m).result.lookup "error" = some (PyVal.str "max_retries") := by
  have e : execute_with_retry func m = ⟨maxRetriesFailure m, 0, []⟩ := by
    have h0 : m.toNat = 0 := by omega
    show retryGo func m 0 m.toNat = _
    rw [h0]
    rfl
  rw [e]
  exact ⟨rfl, rfl, rfl⟩

theorem nonpositive_budget_no_invalid_configuration_witness :
    (execute_with_retry (fun _ => successResult) 0).calls = 0 ∧
    (execute_with_retry (fun _ => successResult) 0).waits = [] ∧
    (execute_with_retry (fun _ => successResult) 0).result.lookup "error" =
      some (PyVal.str "max_retries") :=
  nonpositive_budget_no_invalid_configuration (fun _ => successResult) 0 (by decide)

/-- C8 counterexample: the invariant that a returned `"max_retries"` code
implies all attempts were retryable failures is false as stated — an
operation whose own non-retryable failure carries the code `"max_retries"`
has that result returned unchanged after one non-retryable attempt. -/
theorem max_retries_code_counterexample :
    ¬ (∀ (func : Nat → PyDict) (m : Int),
        (execute_with_retry func m).result.lookup "error" =
          some (PyVal.str "max_retries") →
        ∀ i, i < (execute_with_retry func m).calls → shouldRetry (func i) = true) := by
  intro hclaim
  have h := hclaim (fun _ => upstreamMaxRetriesResult) 3 rfl 0 (by decide)
  exact absurd h (by decide)

/-- C8 amended: in every execution, the number of calls never exceeds the
configured maximum; a failure with a falsy `retryable` ends the run at once,
with no wait after it and no further attempt; and — provided the operation
never itself answers with the error code `"max_retries"` — a returned
`"max_retries"` code implies every call made yielded a retryable failure. -/
theorem retry_loop_invariants (func : Nat → PyDict) (m : Int) :
    (execute_with_retry func m).calls ≤ m.toNat ∧
    (∀ i, i < m.toNat → (∀ j, j < i → shouldRetry (func j) = true) →
      dictHas (func i) "error" = true → truthy (dictGet (func i) "retryable") = false →
      execute_with_retry func m = ⟨func i, i + 1, (List.range i).map (fun j => 2 ^ j)⟩) ∧
    ((∀ i, dictGet (func i) "error" ≠ PyVal.str "max_retries") →
      (execute_with_retry func m).result.lookup "error" = some (PyVal.str "max_retries") →
      ∀ i, i < (execute_with_retry func m).calls → shouldRetry (func i) = true) := by
  refine ⟨retryGo_calls_le func m m.toNat 0, ?_, ?_⟩
  · intro i hi hbefore herr hfalsy
    have hs : shouldRetry (func i) = false := by simp [shouldRetry, hfalsy]
    have hfe := retryGo_first_exit func m i m.toNat 0 hi
      (fun j hj => by simpa using hbefore j hj) (by simpa using hs)
    show retryGo func m 0 m.toNat = _
    rw [hfe]
    simp [Nat.zero_add]
  · intro hne hres i hilt
    have := retryGo_max_retries_provenance func m hne m.toNat 0 hres i hilt
    simpa using this

theorem retry_loop_invariants_witness :
    execute_with_retry (fun _ => notFoundResult) 3 = ⟨notFoundResult, 1, []⟩ := by
  have h := (retry_loop_invariants (fun _ => notFoundResult) 3).2.1 0 (by decide)
    (fun j hj => absurd hj (Nat.not_lt_zero j)) rfl rfl
  exact h
